import Mathlib

/-!
Verification of the QuantumShield core against its specification.

The development shallowly embeds the JavaScript sources:
* `src/backend/src/server.js`            — Socket.IO relay (`sendMessage`, `sendFile`)
* `src/backend/src/crypto/pqc.js`        — backend PQC pipeline
* `src/backend/src/api/cryptoRoutes.js`  — HTTP crypto endpoints
* `src/backend/src/database/db.js`       — database schema
* `src/frontend/src/utils/crypto.js`     — frontend crypto pipeline and keystore
* friend routes (`friendRoutes.js`)      — friendship state machine

External cryptographic primitives (liboqs ML-KEM-1024 / Falcon-1024, WebCrypto
AES-256-GCM, PBKDF2) are modelled as abstract operation records; theorems take
their correctness properties as pointwise hypotheses, and witnesses instantiate
small executable stand-ins.  Base64 transport encoding is a bijection applied
at the wire boundary and is modelled by carrying either the decoded bytes
(`Bytes`) for fields whose text is never inspected, or the base64 text
(`String`) for fields that the code concatenates or JSON-serializes.
-/

namespace QS

/-- Byte strings (decoded wire values, keys, salts). -/
abbrev Bytes := List Nat

/-- Abstract ML-KEM-1024 interface (liboqs `createMLKEM1024`), as used by the
sources: public/secret keys travel as base64 (modelled decoded, `Bytes`),
the KEM ciphertext is an opaque base64 string, the 32-byte shared secret is
opaque (`Nat`).  `encaps` is deterministic given the randomness argument. -/
structure KEM where
  keypair : Bytes → Bytes → Bool
  encaps : Bytes → Nat → String × Nat
  decaps : String → Bytes → Option Nat

/-- Abstract AES-256-GCM interface (WebCrypto / node `crypto`).  `enc` returns
the (base64 ciphertext, base64 tag) pair that the sources split out of the
combined WebCrypto buffer; `dec` recombines them, mirroring
`decryptMessage`.  `encWhole` is the un-split combined ciphertext used by the
keystore's `encryptJSON`. -/
structure AEAD where
  enc : Nat → String → String → String × String
  dec : Nat → String → String → String → Option String
  encWhole : Nat → String → String → String

/-- Abstract Falcon-1024 interface (liboqs `createFalcon1024`): signatures are
opaque base64 strings, keys decoded bytes. -/
structure SIG where
  sign : String → Bytes → String
  verify : String → String → Bytes → Bool

/-- Canonical signing payload, from `buildSignaturePayload` in
`frontend/src/utils/crypto.js`:
`JSON.stringify({ c: ciphertextBase64, i: ivBase64, t: authTagBase64 })`.
Base64 strings contain no characters that `JSON.stringify` escapes, so the
result is exactly this template with keys in insertion order `c,i,t` and no
whitespace. -/
def buildSignaturePayload (ciphertextBase64 ivBase64 authTagBase64 : String) : String :=
  "\x7b\"c\":\"" ++ ciphertextBase64 ++ "\",\"i\":\"" ++ ivBase64 ++
    "\",\"t\":\"" ++ authTagBase64 ++ "\"\x7d"

/-- Data the relay itself verifies for `sendMessage`, from
`server.js` line 262: `const dataToVerify = encryptedMessage + iv + authTag;`
(plain string concatenation of the received base64 fields). -/
def relayMessageDataToVerify (encryptedMessage iv authTag : String) : String :=
  encryptedMessage ++ iv ++ authTag

/-- Data the relay verifies for `sendFile`, from `server.js` line 343:
`const dataToVerify = fileData + iv + authTag;`. -/
def relayFileDataToVerify (fileData iv authTag : String) : String :=
  fileData ++ iv ++ authTag

/-! ## Server database model (schema from `database/db.js`) -/

/-- Row of the `users` table (`db.js` lines 175-184 / 229-238).  Secret-key
columns are `TEXT NOT NULL` holding base64 of the raw keys; modelled decoded. -/
structure UsersRow where
  id : Nat
  username : String
  kyber_public_key : Bytes
  falcon_public_key : Bytes
  kyber_secret_key : Bytes
  falcon_secret_key : Bytes
  password_hash : String
  deriving Repr, DecidableEq

/-- Status column of `friend_requests` (default `'pending'`). -/
inductive ReqStatus where
  | pending
  | accepted
  | rejected
  deriving Repr, DecidableEq

/-- Row of the `friend_requests` table: `UNIQUE(sender_id, receiver_id)`;
`responded` models whether `responded_at` has been set. -/
structure RequestRow where
  id : Nat
  sender_id : Nat
  receiver_id : Nat
  status : ReqStatus
  responded : Bool
  deriving Repr, DecidableEq

/-- Server-side persistent state: the three tables of `initDb`.  Friendship
rows are the canonical pairs `(user_id_1, user_id_2)` with
`UNIQUE(user_id_1, user_id_2)`. -/
structure ServerDb where
  users : List UsersRow
  friend_requests : List RequestRow
  friendships : List (Nat × Nat)
  deriving Repr, DecidableEq

/-- Look up a user row by id (`SELECT ... FROM users WHERE id = ?`). -/
def ServerDb.findUser (db : ServerDb) (uid : Nat) : Option UsersRow :=
  db.users.find? (fun r => r.id == uid)

/-- Look up a user row by username (`SELECT id FROM users WHERE username = ?`). -/
def ServerDb.findUserByName (db : ServerDb) (name : String) : Option UsersRow :=
  db.users.find? (fun r => r.username == name)

/-- Friendship lookup used by the relay
(`SELECT id FROM friendships WHERE user_id_1 = ? AND user_id_2 = ?`,
with the canonical `min`/`max` arguments). -/
def ServerDb.friendshipExists (db : ServerDb) (a b : Nat) : Bool :=
  db.friendships.contains (Nat.min a b, Nat.max a b)

/-! ## Relay event model (`server.js` Socket.IO handlers) -/

/-- Payload of a client `sendMessage` event.  All envelope pieces are base64
strings on the wire; a JS-falsy (absent or empty) field is the empty string. -/
structure SendMessageEvent where
  senderId : Nat
  receiverId : Nat
  encryptedMessage : String
  kyberCiphertext : String
  iv : String
  authTag : String
  signature : String
  deriving Repr, DecidableEq

/-- Payload of a client `sendFile` event (sender comes from the socket). -/
structure SendFileEvent where
  receiverId : Nat
  fileName : String
  fileSize : Nat
  fileData : String
  kyberCiphertext : String
  iv : String
  authTag : String
  signature : String
  deriving Repr, DecidableEq

/-- Database operations a handler performs, tagged with the table text of the
SQL it runs.  The relay message/file handlers only ever `SELECT`. -/
inductive DbOp where
  | selectOp (table : String)
  | insertOp (table : String)
  | updateOp (table : String)
  | deleteOp (table : String)
  deriving Repr, DecidableEq

/-- Whether a database operation is a pure read. -/
def DbOp.isRead : DbOp → Bool
  | .selectOp _ => true
  | _ => false

/-- Socket emissions of the relay handlers.  `receiveMessage`/`receiveFile`
go to the receiver's room `user_${receiverId}`; everything else goes back to
the sending socket. -/
inductive Emit where
  | messageError (error : String)
  | messageSent (messageId : Nat)
  | receiveMessage (room : Nat) (data : SendMessageEvent) (id : Nat)
  | fileError (error : String)
  | fileDelivered (fileId : String)
  | receiveFile (room : Nat) (data : SendFileEvent) (fileId : String)
  deriving Repr, DecidableEq

/-- Whether an emission is directed at a receiver room (rather than at the
sending socket). -/
def Emit.isRoomEmit : Emit → Bool
  | .receiveMessage _ _ _ => true
  | .receiveFile _ _ _ => true
  | _ => false

/-- Relay `sendMessage` handler, translated check-for-check from
`server.js` lines 205-308.  `online` is the set of user ids whose room has at
least one live socket; `socketUserId` is the authenticated socket user;
`now` stands for `Date.now()`.  Returns the emitted socket events and the
database operations performed.  The relay never writes: there is no message
table and the handler contains only `get` (SELECT) calls. -/
def sendMessage (sig : SIG) (db : ServerDb) (online : List Nat)
    (socketUserId : Nat) (now : Nat) (e : SendMessageEvent) :
    List Emit × List DbOp :=
  if e.senderId ≠ socketUserId then
    ([.messageError "Unauthorized: Sender ID mismatch"], [])
  else if e.kyberCiphertext.isEmpty || e.iv.isEmpty || e.authTag.isEmpty ||
      e.signature.isEmpty || e.encryptedMessage.isEmpty then
    ([.messageError "Encryption is mandatory. All messages must be encrypted with post-quantum cryptography."], [])
  else if e.receiverId = 0 then
    ([.messageError "Missing receiver ID"], [])
  else if ¬ db.friendshipExists e.senderId e.receiverId then
    ([.messageError "You can only message friends"], [.selectOp "friendships"])
  else
    match db.findUser e.senderId with
    | none =>
        ([.messageError "Failed to verify sender"],
         [.selectOp "friendships", .selectOp "users"])
    | some senderUser =>
        if ¬ sig.verify (relayMessageDataToVerify e.encryptedMessage e.iv e.authTag)
            e.signature senderUser.falcon_public_key then
          ([.messageError "Invalid message signature - message may be tampered"],
           [.selectOp "friendships", .selectOp "users"])
        else if online.contains e.receiverId then
          ([.receiveMessage e.receiverId e now, .messageSent now],
           [.selectOp "friendships", .selectOp "users"])
        else
          ([.messageError "Recipient is offline. Messages are only delivered in real-time for security."],
           [.selectOp "friendships", .selectOp "users"])

/-- Relay `sendFile` handler, translated check-for-check from
`server.js` lines 311-404.  The sender id is taken from the authenticated
socket (`socket.userId`); `fileId` stands for the generated
`file_${Date.now()}_${random}` correlation id.  Note the handler performs a
single `users` SELECT for the signature key and never consults
`friendships`. -/
def sendFile (sig : SIG) (db : ServerDb) (online : List Nat)
    (socketUserId : Nat) (fileId : String) (e : SendFileEvent) :
    List Emit × List DbOp :=
  if e.kyberCiphertext.isEmpty || e.iv.isEmpty || e.authTag.isEmpty ||
      e.signature.isEmpty || e.fileData.isEmpty then
    ([.fileError "File encryption is mandatory. Missing required encryption fields."], [])
  else if socketUserId = 0 then
    ([.fileError "Authentication required"], [])
  else if e.receiverId = 0 then
    ([.fileError "Receiver ID required"], [])
  else
    match db.findUser socketUserId with
    | none => ([.fileError "Sender verification failed"], [.selectOp "users"])
    | some sender =>
        if ¬ sig.verify (relayFileDataToVerify e.fileData e.iv e.authTag)
            e.signature sender.falcon_public_key then
          ([.fileError "Invalid file signature"], [.selectOp "users"])
        else if online.contains e.receiverId then
          ([.receiveFile e.receiverId e fileId, .fileDelivered fileId],
           [.selectOp "users"])
        else
          ([.fileError "Recipient is offline. Files are only transferred in real-time for security."],
           [.selectOp "users"])

/-! ## Crypto HTTP routes (`api/cryptoRoutes.js`) and frontend pipeline
(`frontend/src/utils/crypto.js`) -/

/-- Where a cryptographic operation executes. -/
inductive Loc where
  | client
  | server
  deriving Repr, DecidableEq

/-- Cryptographic primitive operations, for tracing which primitives a code
path invokes and where. -/
inductive COp where
  | encapsOp
  | decapsOp
  | verifyOp
  | signOp
  | aeadEncOp
  | aeadDecOp
  deriving Repr, DecidableEq

/-- Body of the HTTP 200 response of `POST /api/crypto/kyber/encapsulate`:
`res.json({ sharedSecret, ciphertext })`. -/
structure EncapsResponse where
  sharedSecret : Nat
  ciphertext : String
  deriving Repr, DecidableEq

/-- Handler of `POST /api/crypto/kyber/encapsulate`
(`cryptoRoutes.js` lines 82-128).  The route validates that the body's
`receiverPublicKey` is base64 decoding to exactly 1568 bytes (the string
nonemptiness and base64-charset checks are subsumed by the decoded-length
check in this decoded-bytes model), then runs the KEM encapsulation
server-side and returns both outputs in the response body. -/
def serverKyberEncapsulate (kem : KEM) (r : Nat) (receiverPublicKey : Bytes) :
    Except String EncapsResponse × List (Loc × COp) :=
  if receiverPublicKey.length ≠ 1568 then
    (.error "receiverPublicKey has invalid length: expected 1568 bytes", [])
  else
    let result := kem.encaps receiverPublicKey r
    (.ok ⟨result.2, result.1⟩, [(.server, .encapsOp)])

/-- Handler of `POST /api/crypto/kyber/decapsulate`
(`cryptoRoutes.js` lines 137-169).  The secret key is read from the `users`
row of the authenticated user and passed directly to the KEM decapsulation;
no decryption of any kind is applied to the stored column value. -/
def serverKyberDecapsulate (kem : KEM) (db : ServerDb) (userId : Nat)
    (ciphertext : String) : Except String Nat × List (Loc × COp) :=
  if ciphertext.isEmpty then
    (.error "ciphertext must be a non-empty base64 string", [])
  else
    match db.findUser userId with
    | none => (.error "User Kyber keys not initialized", [])
    | some row =>
        if row.kyber_secret_key.isEmpty then
          (.error "User Kyber keys not initialized", [])
        else
          match kem.decaps ciphertext row.kyber_secret_key with
          | none => (.error "Decapsulation failed", [(.server, .decapsOp)])
          | some sharedSecret => (.ok sharedSecret, [(.server, .decapsOp)])

/-- Frontend `kyberEncapsulate` (`crypto.js` lines 94-120): requires a stored
auth token, then obtains `(sharedSecret, ciphertext)` from the server's
encapsulate endpoint over HTTP; every failure is re-wrapped by the catch
block into the single generic error.  There is no client-side encapsulation
path (`loadMLKEM1024` is used only by `kyberDecapsulate`). -/
def frontendKyberEncapsulate (kem : KEM) (r : Nat) (token : Option String)
    (receiverPublicKey : Bytes) : Except String (Nat × String) × List (Loc × COp) :=
  match token with
  | none => (.error "Failed to encapsulate with Kyber", [])
  | some _ =>
      match serverKyberEncapsulate kem r receiverPublicKey with
      | (.error _, ops) => (.error "Failed to encapsulate with Kyber", ops)
      | (.ok resp, ops) => (.ok (resp.sharedSecret, resp.ciphertext), ops)

/-- Envelope bundle returned by the frontend `encryptAndSignMessage` (all
fields base64 strings). -/
structure MessageBundle where
  kyberCiphertext : String
  encryptedMessage : String
  iv : String
  authTag : String
  signature : String
  deriving Repr, DecidableEq

/-- Frontend send pipeline `encryptAndSignMessage` (`crypto.js` lines
321-348): server-assisted KEM encapsulation, AES-256-GCM encryption with a
fresh 12-byte IV (`ivR` stands for its base64), then a Falcon signature over
the canonical payload `buildSignaturePayload(ciphertext, iv, authTag)`. -/
def encryptAndSignMessageFE (kem : KEM) (aead : AEAD) (sig : SIG) (r : Nat)
    (ivR : String) (token : Option String) (plaintext : String)
    (receiverKyberPublicKey : Bytes) (senderFalconSecretKey : Bytes) :
    Except String MessageBundle × List (Loc × COp) :=
  match frontendKyberEncapsulate kem r token receiverKyberPublicKey with
  | (.error e, ops) => (.error e, ops)
  | (.ok (sharedSecret, kyberCiphertext), ops) =>
      let encrypted := aead.enc sharedSecret ivR plaintext
      let dataToSign := buildSignaturePayload encrypted.1 ivR encrypted.2
      let signature := sig.sign dataToSign senderFalconSecretKey
      (.ok ⟨kyberCiphertext, encrypted.1, ivR, encrypted.2, signature⟩,
       ops ++ [(.client, .aeadEncOp), (.client, .signOp)])

/-- Frontend receive pipeline `verifyAndDecryptMessage` (`crypto.js` lines
357-400): field presence checks, then Falcon verification over the canonical
payload, then KEM decapsulation, then AEAD decryption — in that order, with
each failure raising before the next step runs.  The returned `COp` list is
the exact sequence of primitive invocations. -/
def verifyAndDecryptMessageFE (kem : KEM) (aead : AEAD) (sig : SIG)
    (bundle : MessageBundle) (receiverKyberSecretKey : Bytes)
    (senderFalconPublicKey : Bytes) : Except String String × List COp :=
  if bundle.kyberCiphertext.isEmpty || bundle.encryptedMessage.isEmpty ||
      bundle.iv.isEmpty || bundle.authTag.isEmpty || bundle.signature.isEmpty then
    (.error "Missing required encryption fields in message bundle", [])
  else if receiverKyberSecretKey.isEmpty || senderFalconPublicKey.isEmpty then
    (.error "Missing decryption keys", [])
  else
    let dataToVerify :=
      buildSignaturePayload bundle.encryptedMessage bundle.iv bundle.authTag
    if ¬ sig.verify dataToVerify bundle.signature senderFalconPublicKey then
      (.error "Signature verification failed - message may be tampered", [.verifyOp])
    else
      match kem.decaps bundle.kyberCiphertext receiverKyberSecretKey with
      | none => (.error "Failed to decapsulate with Kyber", [.verifyOp, .decapsOp])
      | some sharedSecret =>
          match aead.dec sharedSecret bundle.iv bundle.encryptedMessage bundle.authTag with
          | none =>
              (.error "Failed to decrypt message - authentication failed",
               [.verifyOp, .decapsOp, .aeadDecOp])
          | some plaintext => (.ok plaintext, [.verifyOp, .decapsOp, .aeadDecOp])

/-- Encrypted file bundle returned by the frontend `encryptAndSignFile`
(`crypto.js` lines 896-905): the file metadata travels alongside the
envelope fields. -/
structure FileBundle where
  fileName : String
  fileSize : Nat
  fileType : String
  fileData : String
  kyberCiphertext : String
  iv : String
  authTag : String
  signature : String
  deriving Repr, DecidableEq

/-- Frontend file send pipeline `encryptAndSignFile` (`crypto.js` lines
869-906): the file bytes are base64-encoded (`fileBase64`), then the
pipeline is the same as for messages — server-assisted KEM encapsulation,
AES-256-GCM encryption of `fileBase64` with a fresh IV, Falcon signature
over the canonical payload — and the bundle carries the file's name, size
and type alongside. -/
def encryptAndSignFileFE (kem : KEM) (aead : AEAD) (sig : SIG) (r : Nat)
    (ivR : String) (token : Option String) (fileName : String) (fileSize : Nat)
    (fileType fileBase64 : String) (receiverKyberPublicKey : Bytes)
    (senderFalconSecretKey : Bytes) : Except String FileBundle × List (Loc × COp) :=
  match frontendKyberEncapsulate kem r token receiverKyberPublicKey with
  | (.error e, ops) => (.error e, ops)
  | (.ok (sharedSecret, kyberCiphertext), ops) =>
      let encrypted := aead.enc sharedSecret ivR fileBase64
      let dataToSign := buildSignaturePayload encrypted.1 ivR encrypted.2
      let signature := sig.sign dataToSign senderFalconSecretKey
      (.ok ⟨fileName, fileSize, fileType, encrypted.1, kyberCiphertext, ivR,
            encrypted.2, signature⟩,
       ops ++ [(.client, .aeadEncOp), (.client, .signOp)])

/-- Backend receive pipeline `verifyAndDecryptMessage`
(`crypto/pqc.js` lines 260-278): Falcon verification over the concatenation
`encryptedMessage + iv + authTag`, then decapsulation, then AEAD
decryption, failing closed in that order. -/
def verifyAndDecryptMessageBE (kem : KEM) (aead : AEAD) (sig : SIG)
    (bundle : MessageBundle) (receiverKyberSecretKey : Bytes)
    (senderFalconPublicKey : Bytes) : Except String String × List COp :=
  let dataToVerify := bundle.encryptedMessage ++ bundle.iv ++ bundle.authTag
  if ¬ sig.verify dataToVerify bundle.signature senderFalconPublicKey then
    (.error "Signature verification failed - message may be tampered", [.verifyOp])
  else
    match kem.decaps bundle.kyberCiphertext receiverKyberSecretKey with
    | none => (.error "Failed to decapsulate with Kyber", [.verifyOp, .decapsOp])
    | some sharedSecret =>
        match aead.dec sharedSecret bundle.iv bundle.encryptedMessage bundle.authTag with
        | none =>
            (.error "Failed to decrypt message - authentication failed",
             [.verifyOp, .decapsOp, .aeadDecOp])
        | some plaintext => (.ok plaintext, [.verifyOp, .decapsOp, .aeadDecOp])

/-! ## Client keystore (`crypto.js` lines 402-747) -/

/-- Abstract PBKDF2 key-derivation interface (WebCrypto `deriveKey`):
arguments are password, salt, iteration count, hash name, and derived key
length in bits. -/
structure KDF where
  derive : String → Bytes → Nat → String → Nat → Nat

/-- Password-to-KEK derivation `deriveKEK` (`crypto.js` lines 568-589):
PBKDF2 with hash SHA-256, 600000 iterations, deriving a 256-bit AES-GCM
key. -/
def deriveKEK (kdf : KDF) (password : String) (salt : Bytes) : Nat :=
  kdf.derive password salt 600000 "SHA-256" 256

/-- Records of the IndexedDB keystore (`qs-keystore`): the per-user secrets
blob `{salt, iv, ciphertext}`, the bare salt mirror, and the plaintext public
keys. -/
inductive StoreRecord where
  | secretsRec (salt : Bytes) (iv : String) (ciphertext : String)
  | metaSalt (salt : Bytes)
  | metaPubkeys (kyberPublicKey falconPublicKey : String)
  deriving Repr, DecidableEq

/-- Keystore contents: records keyed by their `id` string. -/
abbrev KeystoreDb := List (String × StoreRecord)

/-- IndexedDB `put` (upsert by keyPath `id`). -/
def putRecord (db : KeystoreDb) (id : String) (rec : StoreRecord) : KeystoreDb :=
  (id, rec) :: db.filter (fun p => p.1 ≠ id)

/-- IndexedDB `get` by `id`. -/
def getRecord (db : KeystoreDb) (id : String) : Option StoreRecord :=
  (db.find? (fun p => p.1 == id)).map (fun p => p.2)

/-- In-memory session of the keystore module
(`sessionUser` / `sessionKEK` module globals). -/
structure SessionState where
  sessionUser : Option String
  sessionKEK : Option Nat
  deriving Repr, DecidableEq

/-- Per-tab session mirror written by `persistSession` into sessionStorage
(`qs_session_user`, `qs_session_kek`, `qs_session_timestamp`). -/
structure SessionMirror where
  user : Option String
  kek : Option Nat
  timestamp : Option Nat
  deriving Repr, DecidableEq

/-- JSON serialization of the secrets blob,
`JSON.stringify({ kyberSecretKey, falconSecretKey })` with base64 string
values (no characters requiring escaping). -/
def serializeSecrets (kyberSecretKey falconSecretKey : String) : String :=
  "\x7b\"kyberSecretKey\":\"" ++ kyberSecretKey ++
    "\",\"falconSecretKey\":\"" ++ falconSecretKey ++ "\"\x7d"

/-- Keystore initialization `initializeSecureKeys` (`crypto.js` lines
606-651): fresh 16-byte salt from the CSPRNG (`rng`), KEK via `deriveKEK`,
AES-GCM encryption of the serialized secrets under the KEK with a fresh IV
(`ivR`), then three `put`s: the encrypted secrets blob, the bare salt, and
the plaintext public keys; finally the session and its sessionStorage
mirror are set.  (The name is shortened for the embedding.) -/
def initSecureKeys (kdf : KDF) (aead : AEAD) (rng : Nat → Bytes) (ivR : String)
    (username password : String)
    (kyberSecretKey falconSecretKey kyberPublicKey falconPublicKey : String)
    (db : KeystoreDb) (now : Nat) : KeystoreDb × SessionState × SessionMirror :=
  let salt := rng 16
  let kek := deriveKEK kdf password salt
  let ciphertext := aead.encWhole kek ivR (serializeSecrets kyberSecretKey falconSecretKey)
  let db1 := putRecord db ("secrets_" ++ username) (.secretsRec salt ivR ciphertext)
  let db2 := putRecord db1 ("salt_" ++ username) (.metaSalt salt)
  let db3 := putRecord db2 ("pubkeys_" ++ username) (.metaPubkeys kyberPublicKey falconPublicKey)
  (db3, ⟨some username, some kek⟩, ⟨some username, some kek, some now⟩)

/-- Re-login unlock `restoreSessionKEK` (`crypto.js` lines 653-662): fetch
the stored salt record and re-derive the KEK from the password with the same
`deriveKEK`. -/
def restoreSessionKEK (kdf : KDF) (db : KeystoreDb) (username password : String) :
    Except String SessionState :=
  match getRecord db ("salt_" ++ username) with
  | some (.metaSalt salt) => .ok ⟨some username, some (deriveKEK kdf password salt)⟩
  | _ => .error "No keystore metadata found; re-login required"

/-! ## Friendship state machine (friend routes) -/

/-- HTTP status plus the handler's message/error text. -/
structure HttpResponse where
  status : Nat
  message : String
  deriving Repr, DecidableEq

/-- Insert step of `POST /friends/request`: `INSERT INTO friend_requests
(sender_id, receiver_id, status) VALUES (?, ?, 'pending')`.  The table
constraint `UNIQUE(sender_id, receiver_id)` makes the insert fail whenever a
row for the same ordered pair already exists — regardless of its status —
and the handler maps the error to a 500. -/
def createRequestInsert (db : ServerDb) (newId senderId receiverId : Nat) :
    HttpResponse × ServerDb :=
  if db.friend_requests.any (fun q => q.sender_id == senderId && q.receiver_id == receiverId) then
    (⟨500, "Failed to send friend request"⟩, db)
  else
    (⟨201, "Friend request sent successfully"⟩,
     { db with friend_requests :=
        db.friend_requests ++ [⟨newId, senderId, receiverId, .pending, false⟩] })

/-- Handler of `POST /friends/request` (friend routes lines 8-79): resolve
the receiver by username, reject self-requests, reject existing friendships
(either orientation), look up an existing request in either orientation and
reject it when `pending` or `accepted` — a `rejected` row falls through to
the insert step. -/
def createRequest (db : ServerDb) (newId : Nat) (senderId : Nat)
    (receiverUsername : String) : HttpResponse × ServerDb :=
  if receiverUsername.isEmpty then
    (⟨400, "Receiver username is required"⟩, db)
  else
    match db.findUserByName receiverUsername with
    | none => (⟨404, "User not found"⟩, db)
    | some receiver =>
        if receiver.id = senderId then
          (⟨400, "Cannot send friend request to yourself"⟩, db)
        else if db.friendships.contains (senderId, receiver.id) ||
            db.friendships.contains (receiver.id, senderId) then
          (⟨400, "You are already friends with this user"⟩, db)
        else
          match db.friend_requests.find? (fun q =>
              (q.sender_id == senderId && q.receiver_id == receiver.id) ||
              (q.sender_id == receiver.id && q.receiver_id == senderId)) with
          | some existing =>
              if existing.status = .pending then
                (⟨400, "Friend request already pending"⟩, db)
              else if existing.status = .accepted then
                (⟨400, "You are already friends"⟩, db)
              else
                createRequestInsert db newId senderId receiver.id
          | none => createRequestInsert db newId senderId receiver.id

/-- Handler of `POST /friends/request/:request_id/accept` (friend routes
lines 105-154).  The source runs two separate statements with no enclosing
transaction: first `INSERT INTO friendships (min, max)` — which the database
rejects when a row for the pair already exists (`UNIQUE(user_id_1,
user_id_2)`) or when the insert fails for infrastructure reasons
(`insertFails`) — then `UPDATE friend_requests SET status='accepted',
responded_at=... WHERE id = ?`, whose own failure (`updateFails`) is
reported as a 500 *after* the friendship row has already been committed. -/
def acceptRequest (db : ServerDb) (requestId userId : Nat)
    (insertFails updateFails : Bool) : HttpResponse × ServerDb :=
  match db.friend_requests.find? (fun q => q.id == requestId && q.receiver_id == userId) with
  | none => (⟨404, "Friend request not found"⟩, db)
  | some fr =>
      if fr.status ≠ .pending then
        (⟨400, "Friend request is no longer pending"⟩, db)
      else
        let u1 := Nat.min fr.sender_id userId
        let u2 := Nat.max fr.sender_id userId
        if db.friendships.contains (u1, u2) || insertFails then
          (⟨500, "Failed to create friendship"⟩, db)
        else
          let db1 := { db with friendships := db.friendships ++ [(u1, u2)] }
          if updateFails then
            (⟨500, "Failed to accept friend request"⟩, db1)
          else
            (⟨200, "Friend request accepted"⟩,
             { db1 with friend_requests := db1.friend_requests.map (fun r =>
                if r.id == requestId then { r with status := .accepted, responded := true }
                else r) })

/-! ## Small executable primitive instances

Used by witnesses and counterexamples to instantiate the abstract primitive
interfaces; they satisfy the pointwise correctness properties the theorems
assume at the concrete inputs where they are applied. -/

/-- Executable stand-in KEM: the shared secret is recoverable from the
ciphertext length, so decapsulation inverts encapsulation. -/
def toyKEM : KEM where
  keypair pk sk := pk == sk
  encaps _pk r := (String.mk (List.replicate (r + 1) 'c'), r + 1)
  decaps ct _sk := some ct.length

/-- Executable stand-in AEAD: appends a sentinel, tags with the key. -/
def toyAEAD : AEAD where
  enc k _iv pt := (pt ++ "!", "t" ++ toString k)
  dec k _iv ct tag := if tag == "t" ++ toString k then some (ct.dropRight 1) else none
  encWhole k _iv pt := pt ++ "#" ++ toString k

/-- Executable stand-in signature scheme: the signature records the signed
message and the secret key; verification checks them against the public
key. -/
def toySIG : SIG where
  sign m sk := m ++ "#" ++ toString sk
  verify m s pk := s == m ++ "#" ++ toString pk

/-- Executable stand-in KDF: the derived key encodes all parameters. -/
def toyKDF : KDF where
  derive password salt iterations _hash keyLen :=
    password.length + salt.sum + iterations + keyLen

/-! ## Concrete relay scenario used by the C1 and C4 theorems -/

/-- Registered sender: user 1 with Falcon keypair `[5]`/`[5]` in the toy
scheme. -/
def aliceRow : UsersRow :=
  ⟨1, "alice", [1], [5], [1], [5], "h"⟩

/-- Canonical-payload signature that user 1's client produces for the message
envelope fields `("QUJD", "SVY=", "VEFH")`, exactly as
`encryptAndSignMessage` does (`crypto.js` line 338). -/
def aliceCanonicalSig : String :=
  toySIG.sign (buildSignaturePayload "QUJD" "SVY=" "VEFH") [5]

/-- The `sendMessage` event carrying that genuinely signed envelope from
user 1 to user 2. -/
def aliceMessageEvent : SendMessageEvent :=
  ⟨1, 2, "QUJD", "S1lC", "SVY=", "VEFH", aliceCanonicalSig⟩

/-- Relay database for the scenario: user 1 registered and friends with
user 2. -/
def relayDbWithFriendship : ServerDb :=
  ⟨[aliceRow], [], [(1, 2)]⟩

/-- Claim C1: the spec states the relay verifies the Falcon signature over
the canonical signing payload `{"c":...,"i":...,"t":...}` reconstructed by
the relay itself.  The relay code (`server.js` line 262) instead verifies
over the plain concatenation `encryptedMessage + iv + authTag`, which is
never equal to the canonical payload the client signed
(`crypto.js` lines 82-83, 338) — so an envelope carrying the genuine
canonical-payload signature of the legitimate sender is rejected with the
bad-signature error and not delivered.  This theorem evaluates the relay at
that failing input: the signature verifies over the canonical payload, the
two payloads differ, and the relay emits the bad-signature error. -/
theorem relay_rejects_canonical_payload_signature :
    toySIG.verify (buildSignaturePayload "QUJD" "SVY=" "VEFH") aliceCanonicalSig
      aliceRow.falcon_public_key = true ∧
    relayMessageDataToVerify "QUJD" "SVY=" "VEFH" ≠
      buildSignaturePayload "QUJD" "SVY=" "VEFH" ∧
    sendMessage toySIG relayDbWithFriendship [2] 1 99 aliceMessageEvent =
      ([.messageError "Invalid message signature - message may be tampered"],
       [.selectOp "friendships", .selectOp "users"]) := by
  decide

/-- File event from user 1 to user 2 whose signature matches what the relay
checks (`fileData + iv + authTag`, `server.js` line 343). -/
def nonFriendFileEvent : SendFileEvent :=
  ⟨2, "f.txt", 3, "RkZG", "S1lC", "SVY=", "VEFH",
   toySIG.sign (relayFileDataToVerify "RkZG" "SVY=" "VEFH") [5]⟩

/-- Relay database with user 1 registered but NO friendship rows at all. -/
def relayDbNoFriendship : ServerDb :=
  ⟨[aliceRow], [], []⟩

/-- Claim C4 counterexample: the spec states `send_file` runs the identical
authorization pipeline as `send_message`, rejecting when no Friendship row
exists for the pair.  The `sendFile` handler (`server.js` lines 311-404)
performs no friendship lookup at all: with an empty `friendships` table it
still emits `receiveFile` into the receiver's room and `fileDelivered` to
the sender. -/
theorem sendFile_delivers_without_friendship :
    relayDbNoFriendship.friendships = [] ∧
    sendFile toySIG relayDbNoFriendship [2] 1 "fid" nonFriendFileEvent =
      ([.receiveFile 2 nonFriendFileEvent "fid", .fileDelivered "fid"],
       [.selectOp "users"]) := by
  decide

/-- Pending friend request from user 1 to user 2 (row id 7). -/
def pendingReq : RequestRow :=
  ⟨7, 1, 2, .pending, false⟩

/-- Claim C8 counterexample: the spec states accept is atomic and no state
can remain where the friendship exists while the request is still pending.
The handler runs the friendship INSERT and the request UPDATE as two
separate statements: when the UPDATE fails after a successful INSERT, the
response is a 500 while the friendship row `(1,2)` has been committed and
the request is still `pending` — exactly the state the claim rules out. -/
theorem accept_update_failure_leaves_partial_state :
    acceptRequest ⟨[], [pendingReq], []⟩ 7 2 false true =
      (⟨500, "Failed to accept friend request"⟩, ⟨[], [pendingReq], [(1, 2)]⟩) ∧
    (acceptRequest ⟨[], [pendingReq], []⟩ 7 2 false true).2.friendships.contains (1, 2) = true ∧
    (acceptRequest ⟨[], [pendingReq], []⟩ 7 2 false true).2.friend_requests =
      [⟨7, 1, 2, .pending, false⟩] := by
  decide

/-- Registered user 2. -/
def bobRow : UsersRow :=
  ⟨2, "bob", [2], [6], [2], [6], "h"⟩

/-- Rejected friend request from user 1 to user 2 (row id 7). -/
def rejectedReq : RequestRow :=
  ⟨7, 1, 2, .rejected, true⟩

/-- Server state after user 2 rejected user 1's request: both users exist, no
friendship, no pending request in either direction. -/
def dbAfterRejection : ServerDb :=
  ⟨[aliceRow, bobRow], [rejectedReq], []⟩

/-- Claim C9: the spec states a rejected pair may later be re-requested and
the new request returns 201.  The handler itself deliberately lets a
`rejected` row fall through to the INSERT (it only blocks on `pending` and
`accepted`), but the `friend_requests` table's `UNIQUE(sender_id,
receiver_id)` constraint makes the INSERT of the same ordered pair fail, so
the route answers 500 `Failed to send friend request` and the state is
unchanged — the code defeats its own fall-through logic. -/
theorem rerequest_after_rejection_returns_500 :
    createRequest dbAfterRejection 8 1 "bob" =
      (⟨500, "Failed to send friend request"⟩, dbAfterRejection) := by
  decide

/-- Claim C4 (amended): `send_file` validates the encryption fields, the
authenticated sender, the receiver id and the Falcon signature, but performs
no friendship check at all — its outcome is independent of the `friendships`
table (any two states agreeing on `users` behave identically), its only
database access is the `users` SELECT, and an event passing the field,
sender and signature checks is delivered whenever the receiver is online,
friendship or not. -/
theorem sendFile_pipeline_no_friendship_check
    (sig : SIG) (db db' : ServerDb) (online : List Nat) (socketUserId : Nat)
    (fileId : String) (e : SendFileEvent)
    (husers : db.users = db'.users) :
    sendFile sig db online socketUserId fileId e =
      sendFile sig db' online socketUserId fileId e ∧
    ((sendFile sig db online socketUserId fileId e).2 = [] ∨
      (sendFile sig db online socketUserId fileId e).2 = [DbOp.selectOp "users"]) ∧
    (∀ u, db.findUser socketUserId = some u →
      sig.verify (relayFileDataToVerify e.fileData e.iv e.authTag) e.signature
        u.falcon_public_key = true →
      (e.kyberCiphertext.isEmpty || e.iv.isEmpty || e.authTag.isEmpty ||
        e.signature.isEmpty || e.fileData.isEmpty) = false →
      socketUserId ≠ 0 → e.receiverId ≠ 0 → online.contains e.receiverId = true →
      (sendFile sig db online socketUserId fileId e).1 =
        [.receiveFile e.receiverId e fileId, .fileDelivered fileId]) := by
  refine ⟨?_, ?_, ?_⟩
  · simp only [sendFile, ServerDb.findUser, husers]
  · unfold sendFile
    split
    · exact Or.inl rfl
    · split
      · exact Or.inl rfl
      · split
        · exact Or.inl rfl
        · split
          · exact Or.inr rfl
          · split
            · exact Or.inr rfl
            · split
              · exact Or.inr rfl
              · exact Or.inr rfl
  · intro u hu hv hfields hsid hrid honline
    have honline' : e.receiverId ∈ online := by simpa using honline
    unfold sendFile
    simp [hu, hv, hfields, hsid, hrid, honline']

/-- Claim C7: when the receiver's room has no live connection, the relay's
`sendMessage` handler emits nothing into any room, performs only SELECTs
(so no envelope reaches any persistent store and no copy survives the
handler), and — for an event that passes the sender, field, friendship and
signature checks — answers the sender with exactly the recipient-offline
error. -/
theorem sendMessage_offline_rejects_without_storage
    (sig : SIG) (db : ServerDb) (online : List Nat) (socketUserId now : Nat)
    (e : SendMessageEvent)
    (hoff : online.contains e.receiverId = false) :
    (∀ em ∈ (sendMessage sig db online socketUserId now e).1, em.isRoomEmit = false) ∧
    (∀ op ∈ (sendMessage sig db online socketUserId now e).2, op.isRead = true) ∧
    (∀ u, e.senderId = socketUserId →
      (e.kyberCiphertext.isEmpty || e.iv.isEmpty || e.authTag.isEmpty ||
        e.signature.isEmpty || e.encryptedMessage.isEmpty) = false →
      e.receiverId ≠ 0 →
      db.friendshipExists e.senderId e.receiverId = true →
      db.findUser e.senderId = some u →
      sig.verify (relayMessageDataToVerify e.encryptedMessage e.iv e.authTag)
        e.signature u.falcon_public_key = true →
      (sendMessage sig db online socketUserId now e).1 =
        [.messageError "Recipient is offline. Messages are only delivered in real-time for security."]) := by
  refine ⟨?_, ?_, ?_⟩
  · intro em hem
    unfold sendMessage at hem
    split at hem
    · simp at hem; simp [hem, Emit.isRoomEmit]
    · split at hem
      · simp at hem; simp [hem, Emit.isRoomEmit]
      · split at hem
        · simp at hem; simp [hem, Emit.isRoomEmit]
        · split at hem
          · simp at hem; simp [hem, Emit.isRoomEmit]
          · split at hem
            · simp at hem; simp [hem, Emit.isRoomEmit]
            · split at hem
              · simp at hem; simp [hem, Emit.isRoomEmit]
              · split at hem
                · simp_all
                · simp at hem; simp [hem, Emit.isRoomEmit]
  · intro op hop
    unfold sendMessage at hop
    split at hop
    · simp at hop
    · split at hop
      · simp at hop
      · split at hop
        · simp at hop
        · split at hop
          · simp at hop; simp [hop, DbOp.isRead]
          · split at hop
            · simp at hop
              rcases hop with h | h <;> simp [h, DbOp.isRead]
            · split at hop
              · simp at hop
                rcases hop with h | h <;> simp [h, DbOp.isRead]
              · split at hop
                · simp at hop
                  rcases hop with h | h <;> simp [h, DbOp.isRead]
                · simp at hop
                  rcases hop with h | h <;> simp [h, DbOp.isRead]
  · intro u hsid hfields hrid hfriend hu hv
    have hoff' : e.receiverId ∉ online := by simpa using hoff
    rw [hsid] at hfriend hu
    unfold sendMessage
    simp [hsid, hfields, hrid, hfriend, hu, hv, hoff']

/-- Claim C3: whenever the frontend send pipeline — for a message or for a
file — produces a bundle, the 32-byte AES key is the `sharedSecret` field of
the server's `POST /api/crypto/kyber/encapsulate` HTTP response: the server
computed the encapsulation (the response carries both KEM outputs), the
bundle's AEAD ciphertext was produced under exactly that returned secret,
and every encapsulation in either pipeline's trace ran on the server — none
on the client. -/
theorem message_and_file_keys_come_from_server_encapsulation
    (kem : KEM) (aead : AEAD) (sig : SIG) (r : Nat) (ivR : String)
    (token : Option String) (plaintext fileName : String) (fileSize : Nat)
    (fileType fileBase64 : String) (receiverKyberPublicKey : Bytes)
    (senderFalconSecretKey : Bytes) (bundle : MessageBundle) (fbundle : FileBundle)
    (ops fops : List (Loc × COp)) :
    (encryptAndSignMessageFE kem aead sig r ivR token plaintext
        receiverKyberPublicKey senderFalconSecretKey = (.ok bundle, ops) →
      ∃ resp : EncapsResponse,
        (serverKyberEncapsulate kem r receiverKyberPublicKey).1 = .ok resp ∧
        resp.sharedSecret = (kem.encaps receiverKyberPublicKey r).2 ∧
        resp.ciphertext = (kem.encaps receiverKyberPublicKey r).1 ∧
        bundle.kyberCiphertext = resp.ciphertext ∧
        bundle.encryptedMessage = (aead.enc resp.sharedSecret ivR plaintext).1 ∧
        bundle.authTag = (aead.enc resp.sharedSecret ivR plaintext).2 ∧
        (Loc.server, COp.encapsOp) ∈ ops ∧
        (∀ l, (l, COp.encapsOp) ∈ ops → l = Loc.server)) ∧
    (encryptAndSignFileFE kem aead sig r ivR token fileName fileSize fileType
        fileBase64 receiverKyberPublicKey senderFalconSecretKey = (.ok fbundle, fops) →
      ∃ resp : EncapsResponse,
        (serverKyberEncapsulate kem r receiverKyberPublicKey).1 = .ok resp ∧
        resp.sharedSecret = (kem.encaps receiverKyberPublicKey r).2 ∧
        resp.ciphertext = (kem.encaps receiverKyberPublicKey r).1 ∧
        fbundle.kyberCiphertext = resp.ciphertext ∧
        fbundle.fileData = (aead.enc resp.sharedSecret ivR fileBase64).1 ∧
        fbundle.authTag = (aead.enc resp.sharedSecret ivR fileBase64).2 ∧
        (Loc.server, COp.encapsOp) ∈ fops ∧
        (∀ l, (l, COp.encapsOp) ∈ fops → l = Loc.server)) := by
  constructor
  · intro h
    unfold encryptAndSignMessageFE frontendKyberEncapsulate serverKyberEncapsulate at h
    cases token with
    | none => simp at h
    | some t =>
        by_cases hlen : receiverKyberPublicKey.length = 1568
        · simp only [hlen, ne_eq, not_true_eq_false, if_false, reduceIte] at h
          rw [Prod.ext_iff] at h
          obtain ⟨h1, h2⟩ := h
          cases Except.ok.inj h1
          subst h2
          refine ⟨⟨(kem.encaps receiverKyberPublicKey r).2,
                   (kem.encaps receiverKyberPublicKey r).1⟩, ?_, rfl, rfl, rfl, rfl, rfl, ?_, ?_⟩
          · unfold serverKyberEncapsulate
            simp [hlen]
          · simp
          · intro l hl
            simp at hl
            exact hl
        · simp [hlen] at h
  · intro h
    unfold encryptAndSignFileFE frontendKyberEncapsulate serverKyberEncapsulate at h
    cases token with
    | none => simp at h
    | some t =>
        by_cases hlen : receiverKyberPublicKey.length = 1568
        · simp only [hlen, ne_eq, not_true_eq_false, if_false, reduceIte] at h
          rw [Prod.ext_iff] at h
          obtain ⟨h1, h2⟩ := h
          cases Except.ok.inj h1
          subst h2
          refine ⟨⟨(kem.encaps receiverKyberPublicKey r).2,
                   (kem.encaps receiverKyberPublicKey r).1⟩, ?_, rfl, rfl, rfl, rfl, rfl, ?_, ?_⟩
          · unfold serverKyberEncapsulate
            simp [hlen]
          · simp
          · intro l hl
            simp at hl
            exact hl
        · simp [hlen] at h

/-- Claim C5 (amended): for any plaintext of at most 10 MiB whose produced
wire fields are nonempty — in particular any nonempty plaintext, since the
AES-GCM ciphertext is base64 of as many bytes as the plaintext — running the
frontend receive pipeline on the output of the frontend send pipeline
returns the original plaintext.  (The unamended "any plaintext" claim fails
at the empty plaintext, whose empty ciphertext trips the receive path's
mandatory-field check.)  The theorem assumes the correctness of the external
primitives precisely at the points where the pipeline applies them: the
KEM decapsulates its own encapsulation under the matching secret key, the
AEAD decrypts its own ciphertext, and the Falcon signature produced over
the canonical payload verifies under the matching public key. -/
theorem encrypt_decrypt_roundtrip
    (kem : KEM) (aead : AEAD) (sig : SIG) (r : Nat) (ivR : String)
    (token : Option String) (plaintext : String) (pk sk spk ssk : Bytes)
    (hsize : plaintext.length ≤ 10 * 1024 * 1024)
    (htok : token.isSome = true)
    (hlen : pk.length = 1568)
    (hct : (kem.encaps pk r).1.isEmpty = false)
    (hiv : ivR.isEmpty = false)
    (hem : (aead.enc (kem.encaps pk r).2 ivR plaintext).1.isEmpty = false)
    (htag : (aead.enc (kem.encaps pk r).2 ivR plaintext).2.isEmpty = false)
    (hsg : (sig.sign (buildSignaturePayload
        (aead.enc (kem.encaps pk r).2 ivR plaintext).1 ivR
        (aead.enc (kem.encaps pk r).2 ivR plaintext).2) ssk).isEmpty = false)
    (hsk : sk.isEmpty = false) (hspk : spk.isEmpty = false)
    (hverify : sig.verify
        (buildSignaturePayload (aead.enc (kem.encaps pk r).2 ivR plaintext).1 ivR
          (aead.enc (kem.encaps pk r).2 ivR plaintext).2)
        (sig.sign (buildSignaturePayload (aead.enc (kem.encaps pk r).2 ivR plaintext).1 ivR
          (aead.enc (kem.encaps pk r).2 ivR plaintext).2) ssk) spk = true)
    (hdecaps : kem.decaps (kem.encaps pk r).1 sk = some (kem.encaps pk r).2)
    (hdec : aead.dec (kem.encaps pk r).2 ivR
        (aead.enc (kem.encaps pk r).2 ivR plaintext).1
        (aead.enc (kem.encaps pk r).2 ivR plaintext).2 = some plaintext) :
    ∃ bundle ops,
      encryptAndSignMessageFE kem aead sig r ivR token plaintext pk ssk =
        (.ok bundle, ops) ∧
      (verifyAndDecryptMessageFE kem aead sig bundle sk spk).1 = .ok plaintext := by
  obtain ⟨t, rfl⟩ := Option.isSome_iff_exists.mp htok
  refine ⟨⟨(kem.encaps pk r).1,
           (aead.enc (kem.encaps pk r).2 ivR plaintext).1, ivR,
           (aead.enc (kem.encaps pk r).2 ivR plaintext).2,
           sig.sign (buildSignaturePayload (aead.enc (kem.encaps pk r).2 ivR plaintext).1 ivR
             (aead.enc (kem.encaps pk r).2 ivR plaintext).2) ssk⟩,
         [(Loc.server, COp.encapsOp), (Loc.client, COp.aeadEncOp), (Loc.client, COp.signOp)],
         ?_, ?_⟩
  · unfold encryptAndSignMessageFE frontendKyberEncapsulate serverKyberEncapsulate
    simp [hlen]
  · unfold verifyAndDecryptMessageFE
    simp [hct, hiv, hem, htag, hsg, hsk, hspk, hverify, hdecaps, hdec]

/-- Claim C6: on the receive path the Falcon signature is verified before
any KEM decapsulation is attempted.  Frontend `verifyAndDecryptMessage`: if
any required envelope field is missing or verification over the canonical
payload fails, the call errors and its primitive trace contains neither a
decapsulation nor an AEAD decryption.  Backend `verifyAndDecryptMessage`:
if verification over the concatenated payload fails, the call errors
likewise without decapsulating or decrypting. -/
theorem signature_verified_before_decapsulation
    (kem : KEM) (aead : AEAD) (sig : SIG) (bundle : MessageBundle) (sk spk : Bytes) :
    (((bundle.kyberCiphertext.isEmpty || bundle.encryptedMessage.isEmpty ||
        bundle.iv.isEmpty || bundle.authTag.isEmpty || bundle.signature.isEmpty) = true ∨
      sig.verify (buildSignaturePayload bundle.encryptedMessage bundle.iv bundle.authTag)
        bundle.signature spk = false) →
      (∃ e, (verifyAndDecryptMessageFE kem aead sig bundle sk spk).1 = .error e) ∧
      COp.decapsOp ∉ (verifyAndDecryptMessageFE kem aead sig bundle sk spk).2 ∧
      COp.aeadDecOp ∉ (verifyAndDecryptMessageFE kem aead sig bundle sk spk).2) ∧
    (sig.verify (bundle.encryptedMessage ++ bundle.iv ++ bundle.authTag)
        bundle.signature spk = false →
      (verifyAndDecryptMessageBE kem aead sig bundle sk spk).1 =
        .error "Signature verification failed - message may be tampered" ∧
      COp.decapsOp ∉ (verifyAndDecryptMessageBE kem aead sig bundle sk spk).2 ∧
      COp.aeadDecOp ∉ (verifyAndDecryptMessageBE kem aead sig bundle sk spk).2) := by
  constructor
  · intro h
    unfold verifyAndDecryptMessageFE
    by_cases hf : (bundle.kyberCiphertext.isEmpty || bundle.encryptedMessage.isEmpty ||
        bundle.iv.isEmpty || bundle.authTag.isEmpty || bundle.signature.isEmpty) = true
    · simp [hf]
    · have hv : sig.verify
          (buildSignaturePayload bundle.encryptedMessage bundle.iv bundle.authTag)
          bundle.signature spk = false := by
        rcases h with h | h
        · exact absurd h hf
        · exact h
      simp only [Bool.not_eq_true] at hf
      by_cases hk : (sk.isEmpty || spk.isEmpty) = true
      · simp [hf, hk]
      · simp only [Bool.not_eq_true] at hk
        simp [hf, hk, hv]
  · intro hv
    unfold verifyAndDecryptMessageBE
    simp [hv]

/-! ## Keystore lookup lemmas -/

/-- Reading back the id just written returns the new record. -/
theorem getRecord_putRecord_eq (db : KeystoreDb) (id : String) (rec : StoreRecord) :
    getRecord (putRecord db id rec) id = some rec := by
  simp [getRecord, putRecord]

/-- Writing under a different id does not change what a read returns. -/
theorem getRecord_putRecord_ne (db : KeystoreDb) (id id2 : String) (rec : StoreRecord)
    (h : id2 ≠ id) : getRecord (putRecord db id2 rec) id = getRecord db id := by
  unfold getRecord putRecord
  have hne : (id2 == id) = false := by simp [h]
  induction db with
  | nil => simp [List.find?, hne]
  | cons hd tl ih =>
      by_cases hhd : hd.1 = id2
      · have hdne : (hd.1 == id) = false := by simp [hhd, h]
        simp only [List.filter_cons, hhd]
        simp only [List.find?, hne, hdne, decide_not]
        simp only [List.find?, hne] at ih
        simpa [hhd] using ih
      · simp only [List.filter_cons, List.find?, hne, decide_not] at ih ⊢
        by_cases hm : (hd.1 == id) = true
        · simp [hhd, List.find?, hm]
        · simp only [Bool.not_eq_true] at hm
          simpa [hhd, List.find?, hm] using ih

/-- Keystore record ids with distinct prefixes differ for every username. -/
theorem pubkeys_id_ne_salt_id (u : String) : ("pubkeys_" ++ u) ≠ ("salt_" ++ u) := by
  intro h
  have hd := congrArg String.data h
  rw [String.data_append, String.data_append] at hd
  have h1 : "pubkeys_".data = 'p' :: "ubkeys_".data := by decide
  have h2 : "salt_".data = 's' :: "alt_".data := by decide
  rw [h1, h2, List.cons_append, List.cons_append] at hd
  injection hd with hc _
  exact absurd hc (by decide)

/-- The pubkeys record id never collides with the secrets record id. -/
theorem pubkeys_id_ne_secrets_id (u : String) : ("pubkeys_" ++ u) ≠ ("secrets_" ++ u) := by
  intro h
  have hd := congrArg String.data h
  rw [String.data_append, String.data_append] at hd
  have h1 : "pubkeys_".data = 'p' :: "ubkeys_".data := by decide
  have h2 : "secrets_".data = 's' :: "ecrets_".data := by decide
  rw [h1, h2, List.cons_append, List.cons_append] at hd
  injection hd with hc _
  exact absurd hc (by decide)

/-- The salt record id never collides with the secrets record id. -/
theorem salt_id_ne_secrets_id (u : String) : ("salt_" ++ u) ≠ ("secrets_" ++ u) := by
  intro h
  have hd := congrArg String.data h
  rw [String.data_append, String.data_append] at hd
  have h1 : "salt_".data = 's' :: 'a' :: "lt_".data := by decide
  have h2 : "secrets_".data = 's' :: 'e' :: "crets_".data := by decide
  rw [h1, h2] at hd
  simp only [List.cons_append] at hd
  injection hd with _ hd
  injection hd with hc _
  exact absurd hc (by decide)

/-- Claim C10: keystore initialization draws a fresh 16-byte salt from the
CSPRNG, derives the KEK with PBKDF2-HMAC-SHA256 at exactly 600000
iterations and 256-bit output, persists that salt (both in the secrets
record and the salt record of the at-rest format), and the unlock path
`restoreSessionKEK` re-derives the KEK from the stored salt with the same
function and parameters, yielding the same KEK for the same password. -/
theorem kek_derivation_parameters
    (kdf : KDF) (aead : AEAD) (rng : Nat → Bytes) (ivR : String)
    (username password ks fs kpk fpk : String) (db : KeystoreDb) (now : Nat)
    (hrng : (rng 16).length = 16) :
    (initSecureKeys kdf aead rng ivR username password ks fs kpk fpk db now).2.1.sessionKEK =
      some (kdf.derive password (rng 16) 600000 "SHA-256" 256) ∧
    getRecord (initSecureKeys kdf aead rng ivR username password ks fs kpk fpk db now).1
        ("salt_" ++ username) = some (.metaSalt (rng 16)) ∧
    getRecord (initSecureKeys kdf aead rng ivR username password ks fs kpk fpk db now).1
        ("secrets_" ++ username) =
      some (.secretsRec (rng 16) ivR
        (aead.encWhole (kdf.derive password (rng 16) 600000 "SHA-256" 256) ivR
          (serializeSecrets ks fs))) ∧
    (rng 16).length = 16 ∧
    restoreSessionKEK kdf
        (initSecureKeys kdf aead rng ivR username password ks fs kpk fpk db now).1
        username password =
      .ok ⟨some username, some (kdf.derive password (rng 16) 600000 "SHA-256" 256)⟩ := by
  have hsalt : getRecord
      (initSecureKeys kdf aead rng ivR username password ks fs kpk fpk db now).1
      ("salt_" ++ username) = some (.metaSalt (rng 16)) := by
    unfold initSecureKeys
    simp only
    rw [getRecord_putRecord_ne _ _ _ _ (pubkeys_id_ne_salt_id username),
        getRecord_putRecord_eq]
  have hsec : getRecord
      (initSecureKeys kdf aead rng ivR username password ks fs kpk fpk db now).1
      ("secrets_" ++ username) =
      some (.secretsRec (rng 16) ivR
        (aead.encWhole (kdf.derive password (rng 16) 600000 "SHA-256" 256) ivR
          (serializeSecrets ks fs))) := by
    unfold initSecureKeys
    simp only
    rw [getRecord_putRecord_ne _ _ _ _ (pubkeys_id_ne_secrets_id username),
        getRecord_putRecord_ne _ _ _ _ (salt_id_ne_secrets_id username),
        getRecord_putRecord_eq]
    simp [deriveKEK]
  refine ⟨?_, hsalt, hsec, hrng, ?_⟩
  · unfold initSecureKeys deriveKEK
    simp
  · unfold restoreSessionKEK
    rw [hsalt]
    simp [deriveKEK]

/-- Claim C2 counterexample: the spec states every persisted record stores
KEM/signature secret keys only as AES-256-GCM ciphertext under the
password-derived KEK.  The server schema (`db.js`: `kyber_secret_key TEXT
NOT NULL`, `falcon_secret_key TEXT NOT NULL`) durably stores the raw keys:
in this concrete state user 1's `kyber_secret_key` column holds the very
bytes that form a valid KEM keypair with the stored public key, and the
decapsulate route succeeds by feeding the column value to the KEM directly
— its operation trace contains a decapsulation and nothing else, in
particular no KEK decryption. -/
theorem server_db_stores_plaintext_secret_key :
    (dbAfterRejection.findUser 1).map (fun r => r.kyber_secret_key) = some [1] ∧
    toyKEM.keypair aliceRow.kyber_public_key aliceRow.kyber_secret_key = true ∧
    serverKyberDecapsulate toyKEM dbAfterRejection 1 "ct" =
      (.ok 2, [(Loc.server, COp.decapsOp)]) :=
  ⟨rfl, rfl, rfl⟩

/-- Claim C2 (amended): the client keystore does store secret keys only
inside the AES-GCM ciphertext under the PBKDF2-derived KEK (the persisted
secrets record is exactly `{salt, iv, ciphertext}` with the keys inside the
ciphertext), but the server's `users` table stores each user's KEM and
signature secret keys in plaintext columns, and the decapsulate route uses
the stored column value directly as the KEM secret key with no KEK
decryption anywhere in its trace. -/
theorem secret_keys_encrypted_client_side_plaintext_server_side
    (kdf : KDF) (aead : AEAD) (rng : Nat → Bytes) (ivR : String)
    (username password ks fs kpk fpk : String) (db : KeystoreDb) (now : Nat)
    (kem : KEM) (sdb : ServerDb) (uid : Nat) (ct : String) (row : UsersRow)
    (hrow : sdb.findUser uid = some row)
    (hct : ct.isEmpty = false)
    (hkey : row.kyber_secret_key.isEmpty = false) :
    getRecord (initSecureKeys kdf aead rng ivR username password ks fs kpk fpk db now).1
        ("secrets_" ++ username) =
      some (.secretsRec (rng 16) ivR
        (aead.encWhole (deriveKEK kdf password (rng 16)) ivR (serializeSecrets ks fs))) ∧
    serverKyberDecapsulate kem sdb uid ct =
      (match kem.decaps ct row.kyber_secret_key with
       | none => (.error "Decapsulation failed", [(Loc.server, COp.decapsOp)])
       | some sharedSecret => (.ok sharedSecret, [(Loc.server, COp.decapsOp)])) ∧
    (∀ op ∈ (serverKyberDecapsulate kem sdb uid ct).2, op.2 ≠ COp.aeadDecOp) := by
  refine ⟨?_, ?_, ?_⟩
  · unfold initSecureKeys
    simp only
    rw [getRecord_putRecord_ne _ _ _ _ (pubkeys_id_ne_secrets_id username),
        getRecord_putRecord_ne _ _ _ _ (salt_id_ne_secrets_id username),
        getRecord_putRecord_eq]
  · unfold serverKyberDecapsulate
    simp [hct, hrow, hkey]
  · intro op hop
    unfold serverKyberDecapsulate at hop
    simp only [hct, hrow, hkey] at hop
    rcases hkem : kem.decaps ct row.kyber_secret_key with _ | ss <;>
      simp [hkem] at hop <;> simp [hop]

/-- Claim C8 (amended): the accept handler runs the friendship INSERT and
the request UPDATE as two separate statements without a transaction.  For a
pending request addressed to the caller: when both statements succeed the
friendship row is created, the request becomes `accepted`, and — when no
row for the pair pre-existed — exactly one friendship row exists for the
pair; when the INSERT fails (pre-existing row under a race, or
infrastructure failure) the handler answers 500 and the state is entirely
unchanged (so under a race the pre-existing friendship coexists with the
still-pending request); and when the UPDATE fails after a successful
INSERT the handler answers 500 with the friendship row committed while the
request remains pending. -/
theorem accept_two_statement_semantics
    (db : ServerDb) (requestId userId : Nat) (insertFails updateFails : Bool)
    (fr : RequestRow)
    (hfind : db.friend_requests.find?
        (fun q => q.id == requestId && q.receiver_id == userId) = some fr)
    (hpending : fr.status = .pending) :
    (db.friendships.contains (Nat.min fr.sender_id userId, Nat.max fr.sender_id userId) = false →
      insertFails = false → updateFails = false →
      acceptRequest db requestId userId insertFails updateFails =
        (⟨200, "Friend request accepted"⟩,
         { db with
            friendships := db.friendships ++
              [(Nat.min fr.sender_id userId, Nat.max fr.sender_id userId)],
            friend_requests := db.friend_requests.map (fun r =>
              if r.id == requestId then { r with status := .accepted, responded := true }
              else r) }) ∧
      (db.friendships ++ [(Nat.min fr.sender_id userId, Nat.max fr.sender_id userId)]).count
          (Nat.min fr.sender_id userId, Nat.max fr.sender_id userId) = 1) ∧
    (db.friendships.contains (Nat.min fr.sender_id userId, Nat.max fr.sender_id userId) = true ∨
        insertFails = true →
      acceptRequest db requestId userId insertFails updateFails =
        (⟨500, "Failed to create friendship"⟩, db)) ∧
    (db.friendships.contains (Nat.min fr.sender_id userId, Nat.max fr.sender_id userId) = false →
      insertFails = false → updateFails = true →
      acceptRequest db requestId userId insertFails updateFails =
        (⟨500, "Failed to accept friend request"⟩,
         { db with friendships := db.friendships ++
            [(Nat.min fr.sender_id userId, Nat.max fr.sender_id userId)] })) := by
  refine ⟨?_, ?_, ?_⟩
  · intro hnone hins hupd
    have hmem : (Nat.min fr.sender_id userId, Nat.max fr.sender_id userId) ∉
        db.friendships := by simpa using hnone
    constructor
    · unfold acceptRequest
      rw [hfind]
      simp [hpending, hmem, hins, hupd]
    · rw [List.count_append, List.count_eq_zero.mpr hmem]
      simp
  · intro h
    unfold acceptRequest
    rw [hfind]
    rcases h with h | h
    · have hmem : (Nat.min fr.sender_id userId, Nat.max fr.sender_id userId) ∈
          db.friendships := by simpa using h
      simp [hpending, hmem]
    · simp [hpending, h]
  · intro hnone hins hupd
    have hmem : (Nat.min fr.sender_id userId, Nat.max fr.sender_id userId) ∉
        db.friendships := by simpa using hnone
    unfold acceptRequest
    rw [hfind]
    simp [hpending, hmem, hins, hupd]

/-! ## Witness instances -/

set_option maxRecDepth 100000

/-- An ML-KEM-1024 public key value: 1568 bytes. -/
def pk1568 : Bytes := List.replicate 1568 0

/-- Bundle the frontend pipeline produces at the witness input. -/
def bundleC3 : MessageBundle :=
  ⟨"cccc", "hello!", "iv", "t4", buildSignaturePayload "hello!" "iv" "t4" ++ "#[7]"⟩

/-- Trace the frontend pipeline produces at the witness input. -/
def opsC3 : List (Loc × COp) :=
  [(.server, .encapsOp), (.client, .aeadEncOp), (.client, .signOp)]

/-- File bundle the frontend file pipeline produces at the witness input. -/
def fbundleC3 : FileBundle :=
  ⟨"f.txt", 3, "text/plain", "RkZG!", "cccc", "iv", "t4",
   buildSignaturePayload "RkZG!" "iv" "t4" ++ "#[7]"⟩

/-- Witness for the C3 theorem at a concrete message send and a concrete
file send. -/
theorem message_and_file_keys_come_from_server_encapsulation_witness :
    (∃ resp : EncapsResponse,
      (serverKyberEncapsulate toyKEM 3 pk1568).1 = .ok resp ∧
      resp.sharedSecret = (toyKEM.encaps pk1568 3).2 ∧
      resp.ciphertext = (toyKEM.encaps pk1568 3).1 ∧
      bundleC3.kyberCiphertext = resp.ciphertext ∧
      bundleC3.encryptedMessage = (toyAEAD.enc resp.sharedSecret "iv" "hello").1 ∧
      bundleC3.authTag = (toyAEAD.enc resp.sharedSecret "iv" "hello").2 ∧
      (Loc.server, COp.encapsOp) ∈ opsC3 ∧
      (∀ l, (l, COp.encapsOp) ∈ opsC3 → l = Loc.server)) ∧
    (∃ resp : EncapsResponse,
      (serverKyberEncapsulate toyKEM 3 pk1568).1 = .ok resp ∧
      resp.sharedSecret = (toyKEM.encaps pk1568 3).2 ∧
      resp.ciphertext = (toyKEM.encaps pk1568 3).1 ∧
      fbundleC3.kyberCiphertext = resp.ciphertext ∧
      fbundleC3.fileData = (toyAEAD.enc resp.sharedSecret "iv" "RkZG").1 ∧
      fbundleC3.authTag = (toyAEAD.enc resp.sharedSecret "iv" "RkZG").2 ∧
      (Loc.server, COp.encapsOp) ∈ opsC3 ∧
      (∀ l, (l, COp.encapsOp) ∈ opsC3 → l = Loc.server)) := by
  have h := message_and_file_keys_come_from_server_encapsulation toyKEM toyAEAD
    toySIG 3 "iv" (some "t") "hello" "f.txt" 3 "text/plain" "RkZG" pk1568 [7]
    bundleC3 fbundleC3 opsC3 opsC3
  exact ⟨h.1 rfl, h.2 rfl⟩

/-- Witness for the C5 round-trip theorem at a concrete send. -/
theorem encrypt_decrypt_roundtrip_witness :
    ∃ bundle ops,
      encryptAndSignMessageFE toyKEM toyAEAD toySIG 3 "iv" (some "t") "hello"
        pk1568 [7] = (.ok bundle, ops) ∧
      (verifyAndDecryptMessageFE toyKEM toyAEAD toySIG bundle [1] [7]).1 = .ok "hello" :=
  encrypt_decrypt_roundtrip toyKEM toyAEAD toySIG 3 "iv" (some "t") "hello"
    pk1568 [1] [7] [7] (by decide) rfl (by simp [pk1568]) rfl rfl rfl rfl rfl rfl rfl
    rfl rfl (by decide)

/-- Executable stand-in AEAD that mirrors AES-256-GCM's length behavior:
the ciphertext has exactly as many bytes as the plaintext (GCM is a stream
cipher; the tag is separate), so the empty plaintext yields the empty
ciphertext.  It decrypts its own output correctly. -/
def toyAEADLen : AEAD where
  enc k _iv pt := (pt, "t" ++ toString k)
  dec k _iv ct tag := if tag == "t" ++ toString k then some ct else none
  encWhole k _iv pt := pt ++ "#" ++ toString k

/-- Trace of the frontend send pipeline at the empty-plaintext input. -/
def opsEmptyMsg : List (Loc × COp) :=
  [(.server, .encapsOp), (.client, .aeadEncOp), (.client, .signOp)]

/-- Bundle the frontend send pipeline produces for the empty plaintext:
its `encryptedMessage` field is the empty string. -/
def bundleEmptyMsg : MessageBundle :=
  ⟨"cccc", "", "iv", "t4", buildSignaturePayload "" "iv" "t4" ++ "#[7]"⟩

/-- Claim C5 counterexample: the unamended claim covers every plaintext of
at most 10 MiB, including the empty one.  With an AEAD whose ciphertext is
empty exactly for the empty plaintext (as AES-256-GCM's is) and which
decrypts its own output correctly, the send pipeline succeeds at
`m = ""` producing a bundle with `encryptedMessage = ""`, and the receive
pipeline rejects that very bundle at its mandatory-field check
(`crypto.js` line 375, `!encryptedMessage`) with the missing-fields error:
`decrypt(encrypt("")) ≠ ""`. -/
theorem empty_plaintext_roundtrip_fails :
    ("" : String).length ≤ 10 * 1024 * 1024 ∧
    toyAEADLen.dec (toyKEM.encaps pk1568 3).2 "iv"
        (toyAEADLen.enc (toyKEM.encaps pk1568 3).2 "iv" "").1
        (toyAEADLen.enc (toyKEM.encaps pk1568 3).2 "iv" "").2 = some "" ∧
    encryptAndSignMessageFE toyKEM toyAEADLen toySIG 3 "iv" (some "t") ""
        pk1568 [7] = (.ok bundleEmptyMsg, opsEmptyMsg) ∧
    (verifyAndDecryptMessageFE toyKEM toyAEADLen toySIG bundleEmptyMsg [1] [7]).1 =
      .error "Missing required encryption fields in message bundle" :=
  ⟨by decide, rfl, rfl, rfl⟩

/-- Bundle with all fields present but a signature that does not verify. -/
def bundleBad : MessageBundle :=
  ⟨"S1lC", "QUJD", "SVY=", "VEFH", "bad"⟩

/-- Witness for the C6 fail-closed theorem at a concrete tampered bundle. -/
theorem signature_verified_before_decapsulation_witness :
    (∃ e, (verifyAndDecryptMessageFE toyKEM toyAEAD toySIG bundleBad [1] [7]).1 = .error e) ∧
    COp.decapsOp ∉ (verifyAndDecryptMessageFE toyKEM toyAEAD toySIG bundleBad [1] [7]).2 ∧
    COp.aeadDecOp ∉ (verifyAndDecryptMessageFE toyKEM toyAEAD toySIG bundleBad [1] [7]).2 ∧
    (verifyAndDecryptMessageBE toyKEM toyAEAD toySIG bundleBad [1] [7]).1 =
      .error "Signature verification failed - message may be tampered" := by
  have h := signature_verified_before_decapsulation toyKEM toyAEAD toySIG bundleBad [1] [7]
  exact ⟨(h.1 (Or.inr (by decide))).1, (h.1 (Or.inr (by decide))).2.1,
         (h.1 (Or.inr (by decide))).2.2, (h.2 (by decide)).1⟩

/-- Signature over the concatenation the relay actually checks, so the
witness event passes every check except the receiver being online. -/
def relayConcatSig : String :=
  toySIG.sign (relayMessageDataToVerify "QUJD" "SVY=" "VEFH") [5]

/-- Message event from user 1 to (offline) user 2 passing all relay checks. -/
def offlineEvent : SendMessageEvent :=
  ⟨1, 2, "QUJD", "S1lC", "SVY=", "VEFH", relayConcatSig⟩

/-- Witness for the C7 offline theorem at a concrete event with nobody in
the receiver's room. -/
theorem sendMessage_offline_rejects_without_storage_witness :
    (∀ em ∈ (sendMessage toySIG relayDbWithFriendship [] 1 5 offlineEvent).1,
      em.isRoomEmit = false) ∧
    (∀ op ∈ (sendMessage toySIG relayDbWithFriendship [] 1 5 offlineEvent).2,
      op.isRead = true) ∧
    (sendMessage toySIG relayDbWithFriendship [] 1 5 offlineEvent).1 =
      [.messageError "Recipient is offline. Messages are only delivered in real-time for security."] := by
  have h := sendMessage_offline_rejects_without_storage toySIG relayDbWithFriendship
    [] 1 5 offlineEvent (by decide)
  exact ⟨h.1, h.2.1, h.2.2 aliceRow rfl (by decide) (by decide) (by decide) rfl (by decide)⟩

/-- Witness for the amended C4 theorem at a concrete file event: same
outcome with and without the friendship row, only a `users` SELECT, and
delivery to the room. -/
theorem sendFile_pipeline_no_friendship_check_witness :
    sendFile toySIG relayDbNoFriendship [2] 1 "fid" nonFriendFileEvent =
      sendFile toySIG relayDbWithFriendship [2] 1 "fid" nonFriendFileEvent ∧
    ((sendFile toySIG relayDbNoFriendship [2] 1 "fid" nonFriendFileEvent).2 = [] ∨
      (sendFile toySIG relayDbNoFriendship [2] 1 "fid" nonFriendFileEvent).2 =
        [DbOp.selectOp "users"]) ∧
    (sendFile toySIG relayDbNoFriendship [2] 1 "fid" nonFriendFileEvent).1 =
      [.receiveFile 2 nonFriendFileEvent "fid", .fileDelivered "fid"] := by
  have h := sendFile_pipeline_no_friendship_check toySIG relayDbNoFriendship
    relayDbWithFriendship [2] 1 "fid" nonFriendFileEvent rfl
  exact ⟨h.1, h.2.1, h.2.2 aliceRow rfl (by decide) (by decide) (by decide)
    (by decide) (by decide)⟩

/-- Witness for the amended C8 theorem: the success path at a concrete
pending request creates the friendship, marks the request accepted, and
leaves exactly one friendship row for the pair. -/
theorem accept_two_statement_semantics_witness :
    acceptRequest ⟨[], [pendingReq], []⟩ 7 2 false false =
      (⟨200, "Friend request accepted"⟩,
       ⟨[], [⟨7, 1, 2, .accepted, true⟩], [(1, 2)]⟩) ∧
    (([] : List (Nat × Nat)) ++ [(1, 2)]).count (1, 2) = 1 := by
  have h := accept_two_statement_semantics ⟨[], [pendingReq], []⟩ 7 2 false false
    pendingReq (by decide) rfl
  exact ⟨(h.1 (by decide) rfl rfl).1, (h.1 (by decide) rfl rfl).2⟩

/-- Witness for the amended C2 theorem at a concrete keystore
initialization and a concrete decapsulation request. -/
theorem secret_keys_encrypted_client_side_plaintext_server_side_witness :
    getRecord (initSecureKeys toyKDF toyAEAD (fun n => List.replicate n 7) "iv"
        "alice" "pw" "KS" "FS" "KPK" "FPK" [] 0).1 ("secrets_" ++ "alice") =
      some (.secretsRec (List.replicate 16 7) "iv"
        (toyAEAD.encWhole (deriveKEK toyKDF "pw" (List.replicate 16 7)) "iv"
          (serializeSecrets "KS" "FS"))) ∧
    serverKyberDecapsulate toyKEM dbAfterRejection 1 "ct" =
      (match toyKEM.decaps "ct" aliceRow.kyber_secret_key with
       | none => (.error "Decapsulation failed", [(Loc.server, COp.decapsOp)])
       | some sharedSecret => (.ok sharedSecret, [(Loc.server, COp.decapsOp)])) ∧
    (∀ op ∈ (serverKyberDecapsulate toyKEM dbAfterRejection 1 "ct").2,
      op.2 ≠ COp.aeadDecOp) :=
  secret_keys_encrypted_client_side_plaintext_server_side toyKDF toyAEAD
    (fun n => List.replicate n 7) "iv" "alice" "pw" "KS" "FS" "KPK" "FPK" [] 0
    toyKEM dbAfterRejection 1 "ct" aliceRow rfl rfl rfl

/-- Witness for the C10 theorem at a concrete initialization and unlock. -/
theorem kek_derivation_parameters_witness :
    (initSecureKeys toyKDF toyAEAD (fun n => List.replicate n 7) "iv" "alice" "pw"
        "KS" "FS" "KPK" "FPK" [] 0).2.1.sessionKEK =
      some (toyKDF.derive "pw" (List.replicate 16 7) 600000 "SHA-256" 256) ∧
    getRecord (initSecureKeys toyKDF toyAEAD (fun n => List.replicate n 7) "iv"
        "alice" "pw" "KS" "FS" "KPK" "FPK" [] 0).1 ("salt_" ++ "alice") =
      some (.metaSalt (List.replicate 16 7)) ∧
    getRecord (initSecureKeys toyKDF toyAEAD (fun n => List.replicate n 7) "iv"
        "alice" "pw" "KS" "FS" "KPK" "FPK" [] 0).1 ("secrets_" ++ "alice") =
      some (.secretsRec (List.replicate 16 7) "iv"
        (toyAEAD.encWhole (toyKDF.derive "pw" (List.replicate 16 7) 600000 "SHA-256" 256)
          "iv" (serializeSecrets "KS" "FS"))) ∧
    (List.replicate 16 (7 : Nat)).length = 16 ∧
    restoreSessionKEK toyKDF (initSecureKeys toyKDF toyAEAD
        (fun n => List.replicate n 7) "iv" "alice" "pw" "KS" "FS" "KPK" "FPK" [] 0).1
        "alice" "pw" =
      .ok ⟨some "alice", some (toyKDF.derive "pw" (List.replicate 16 7) 600000 "SHA-256" 256)⟩ :=
  kek_derivation_parameters toyKDF toyAEAD (fun n => List.replicate n 7) "iv"
    "alice" "pw" "KS" "FS" "KPK" "FPK" [] 0 (by simp)

end QS
